import Mathlib

set_option linter.unusedVariables false

/-!
Verification development for the web-scraper toolkit.

Shallow embedding of the repository's pure/stateful logic:
* `CustomProxyRotator` (src/proxy_handlers/custom.py): list-based proxy
  rotation with an exclusion (failed) set.  `time.time()` is modelled by an
  explicit `now : Int` argument and `random.choice` by a `pick : Nat` oracle
  (the chosen element is `working[pick % working.length]`, covering every
  possible draw).
* `SmartproxyRotator` (src/proxy_handlers/smartproxy.py): session-scoped
  proxy URLs; `random.randint(10000, 99999)` is modelled by a `rand : Nat`
  oracle via `mintSession`.
* `AntiCaptchaSolver.solve_*` (src/captcha_solvers/anticaptcha.py): the
  remote solver is modelled by an oracle `results : Nat → Option String`
  giving each attempt's outcome (`none` covers both a falsy solution and a
  raised, caught exception); the functions additionally return the list of
  sleep durations performed and the number of attempts entered.
* `extract_captcha_sitekey` (src/playwright-stealth/utils.py): the page is a
  table of selector results plus a content string; the three `re.search`
  patterns from the source are implemented character-by-character with
  Python's leftmost-match and lazy-quantifier semantics.
* `sanitize_filename` (src/playwright-stealth/page_saver.py).
* `get_fingerprint_for_domain` (src/playwright-stealth/fingerprint_manager.py):
  the JSON-file-backed table is threaded explicitly, and the success of the
  persisting write is a boolean parameter.
-/

/-- A proxy dictionary from the custom pool: a required `server` key and
optional `username` / `password` keys (src/proxy_handlers/custom.py). -/
structure Proxy where
  server : String
  username : Option String := none
  password : Option String := none
deriving DecidableEq, Repr, Inhabited

/-- State of `CustomProxyRotator` (src/proxy_handlers/custom.py):
ordered pool, current index (−1 = none selected yet), last rotation time,
rotation interval, and the set of failed (excluded) pool indices. -/
structure CustomProxyRotator where
  proxies : List Proxy
  current_index : Int
  last_rotation : Int
  rotation_interval : Int
  failed_proxies : Finset Nat
deriving DecidableEq

/-- `CustomProxyRotator.__init__`. -/
def CustomProxyRotator.init (proxies : List Proxy) : CustomProxyRotator :=
  { proxies := proxies
    current_index := -1
    last_rotation := 0
    rotation_interval := 60
    failed_proxies := ∅ }

/-- Python list indexing semantics: nonnegative indices from the front,
negative indices from the back, out of range is an error (`none`). -/
def pyListGet (xs : List Proxy) (i : Int) : Option Proxy :=
  if 0 ≤ i then xs.get? i.toNat
  else if (-i).toNat ≤ xs.length then xs.get? (xs.length - (-i).toNat)
  else none

/-- `[p for i, p in enumerate(self.proxies) if i not in self.failed_proxies]`. -/
def workingProxies (proxies : List Proxy) (failed : Finset Nat) : List Proxy :=
  (proxies.enum.filter (fun ip => ip.1 ∉ failed)).map Prod.snd

/-- `CustomProxyRotator.get_proxy(force_new)`: returns the proxy (or `none`
for an empty pool) together with the updated rotator state.  `now` stands for
`time.time()` and `pick` for the `random.choice` draw. -/
def CustomProxyRotator.get_proxy (s : CustomProxyRotator) (force_new : Bool)
    (now : Int) (pick : Nat) : Option Proxy × CustomProxyRotator :=
  if s.proxies = [] then (none, s)
  else
    let s' :=
      if force_new = true ∨ s.current_index = -1 ∨
          s.rotation_interval < now - s.last_rotation then
        let working0 := workingProxies s.proxies s.failed_proxies
        let failed1 : Finset Nat := if working0 = [] then ∅ else s.failed_proxies
        let working1 := if working0 = [] then s.proxies else working0
        if working1 = [] then
          { s with failed_proxies := failed1 }
        else
          { s with
            failed_proxies := failed1
            current_index :=
              (s.proxies.indexOf (working1.getD (pick % working1.length) default) : Int)
            last_rotation := now }
      else s
    (pyListGet s'.proxies s'.current_index, s')

/-- `CustomProxyRotator.rotate_proxy`. -/
def CustomProxyRotator.rotate_proxy (s : CustomProxyRotator) (now : Int)
    (pick : Nat) : Option Proxy × CustomProxyRotator :=
  s.get_proxy true now pick

/-- `CustomProxyRotator.mark_proxy_failed`: adds the current index to the
exclusion set when a selection has happened. -/
def CustomProxyRotator.mark_proxy_failed (s : CustomProxyRotator) :
    CustomProxyRotator :=
  if 0 ≤ s.current_index then
    { s with failed_proxies := insert s.current_index.toNat s.failed_proxies }
  else s

/-- `CustomProxyRotator.reset_failed_proxies`. -/
def CustomProxyRotator.reset_failed_proxies (s : CustomProxyRotator) :
    CustomProxyRotator :=
  { s with failed_proxies := ∅ }

/-- `CustomProxyRotator.set_rotation_interval`. -/
def CustomProxyRotator.set_rotation_interval (s : CustomProxyRotator)
    (seconds : Int) : CustomProxyRotator :=
  { s with rotation_interval := seconds }

/-- `CustomProxyRotator.add_proxy` (the validation always passes in the typed
model, where every `Proxy` has a `server` field). -/
def CustomProxyRotator.add_proxy (s : CustomProxyRotator) (p : Proxy) :
    CustomProxyRotator :=
  { s with proxies := s.proxies ++ [p] }

/-- The loop of `CustomProxyRotator.remove_proxy`: pop the first entry whose
`server` equals the argument, or report that none matches. -/
def removeFirstProxy (server : String) : List Proxy → Option (List Proxy)
  | [] => none
  | p :: ps =>
    if p.server = server then some ps
    else (removeFirstProxy server ps).map (p :: ·)

/-- `CustomProxyRotator.remove_proxy(server)`: `true` and the shrunk pool on
a match, `false` and the unchanged state otherwise. -/
def CustomProxyRotator.remove_proxy (s : CustomProxyRotator) (server : String) :
    Bool × CustomProxyRotator :=
  match removeFirstProxy server s.proxies with
  | some ps => (true, { s with proxies := ps })
  | none => (false, s)

/-- `CustomProxyRotator.get_proxy_count`. -/
def CustomProxyRotator.get_proxy_count (s : CustomProxyRotator) : Nat :=
  s.proxies.length

example :
    ((CustomProxyRotator.init [{ server := "a" }, { server := "b" }]).get_proxy
      false 0 0).1 = some { server := "a" } := by decide

/-- The descriptor returned by `SmartproxyRotator.get_proxy`
(src/proxy_handlers/smartproxy.py): all three fields are strings. -/
structure SmartproxyConfig where
  server : String
  username : String
  password : String
deriving DecidableEq, Repr

/-- State of `SmartproxyRotator` (src/proxy_handlers/smartproxy.py). -/
structure SmartproxyRotator where
  username : String
  password : String
  endpoint : String
  port : Nat
  country : Option String
  session_id : Option String
  last_rotation : Int
  rotation_interval : Int
deriving DecidableEq

/-- `SmartproxyRotator.__init__`. -/
def SmartproxyRotator.init (username password : String)
    (endpoint : String := "gate.smartproxy.com") (port : Nat := 7000)
    (country : Option String := none) : SmartproxyRotator :=
  { username := username
    password := password
    endpoint := endpoint
    port := port
    country := country
    session_id := none
    last_rotation := 0
    rotation_interval := 60 }

/-- `str(random.randint(10000, 99999))`, with the draw given by the `rand`
oracle: every value in the 5-digit range is reachable. -/
def mintSession (rand : Nat) : String :=
  toString (10000 + rand % 90000)

/-- `SmartproxyRotator.get_proxy(force_new)`: rotates the session id when
forced, absent, or stale, then builds the proxy URL from the current fields.
Python's `if self.country:` treats an empty string as falsy. -/
def SmartproxyRotator.get_proxy (s : SmartproxyRotator) (force_new : Bool)
    (now : Int) (rand : Nat) : SmartproxyConfig × SmartproxyRotator :=
  let s' :=
    if force_new = true ∨ s.session_id = none ∨
        s.rotation_interval < now - s.last_rotation then
      { s with session_id := some (mintSession rand), last_rotation := now }
    else s
  let sid := s'.session_id.getD ""
  let sessionUser := s'.username ++ "-session-" ++ sid
  let baseUrl := "http://" ++ sessionUser ++ ":" ++ s'.password ++ "@" ++
    s'.endpoint ++ ":" ++ toString s'.port
  let url :=
    match s'.country with
    | some c =>
      if c = "" then baseUrl
      else "http://" ++ s'.username ++ "-country-" ++ c ++ "-session-" ++ sid ++
        ":" ++ s'.password ++ "@" ++ s'.endpoint ++ ":" ++ toString s'.port
    | none => baseUrl
  ({ server := url, username := sessionUser, password := s'.password }, s')

/-- `SmartproxyRotator.rotate_proxy`. -/
def SmartproxyRotator.rotate_proxy (s : SmartproxyRotator) (now : Int)
    (rand : Nat) : SmartproxyConfig × SmartproxyRotator :=
  s.get_proxy true now rand

/-- `SmartproxyRotator.set_rotation_interval`. -/
def SmartproxyRotator.set_rotation_interval (s : SmartproxyRotator)
    (seconds : Int) : SmartproxyRotator :=
  { s with rotation_interval := seconds }

/-- The shared retry loop of `AntiCaptchaSolver.solve_*`
(src/captcha_solvers/anticaptcha.py), recursing on the number of remaining
attempts.  `results attempt` is the outcome of the attempt with that 0-based
index; on failure the loop sleeps `5 * (attempt + 1)` seconds unless the
attempt was the last one.  Returns the solution (or `none`), the list of
sleep durations performed in order, and the number of attempts entered. -/
def solveAttempts (results : Nat → Option String) :
    Nat → Nat → List Nat → Nat → Option String × List Nat × Nat
  | 0, _, sleeps, tried => (none, sleeps, tried)
  | remaining + 1, attempt, sleeps, tried =>
    match results attempt with
    | some sol => (some sol, sleeps, tried + 1)
    | none =>
      solveAttempts results remaining (attempt + 1)
        (if 0 < remaining then sleeps ++ [5 * (attempt + 1)] else sleeps)
        (tried + 1)

/-- `AntiCaptchaSolver.solve_recaptcha`: `max_attempts` is a Python int, and
`range(max_attempts)` is empty when it is nonpositive (`Int.toNat`). -/
def AntiCaptchaSolver.solve_recaptcha (website_url website_key : String)
    (is_invisible : Bool) (results : Nat → Option String)
    (max_attempts : Int := 3) : Option String × List Nat × Nat :=
  solveAttempts results max_attempts.toNat 0 [] 0

/-- `AntiCaptchaSolver.solve_hcaptcha`. -/
def AntiCaptchaSolver.solve_hcaptcha (website_url website_key : String)
    (results : Nat → Option String) (max_attempts : Int := 3) :
    Option String × List Nat × Nat :=
  solveAttempts results max_attempts.toNat 0 [] 0

/-- `AntiCaptchaSolver.solve_turnstile`. -/
def AntiCaptchaSolver.solve_turnstile (website_url website_key : String)
    (results : Nat → Option String) (max_attempts : Int := 3) :
    Option String × List Nat × Nat :=
  solveAttempts results max_attempts.toNat 0 [] 0

/-- The character class `[\\/*?:"<>|]` of `sanitize_filename`
(src/playwright-stealth/page_saver.py). -/
def invalidFilenameChars : List Char :=
  ['\\', '/', '*', '?', ':', '"', '<', '>', '|']

/-- One step of `re.sub(r'[\\/*?:"<>|]', '_', filename)`. -/
def replaceInvalidChar (c : Char) : Char :=
  if c ∈ invalidFilenameChars then '_' else c

/-- Python `str.isspace()` per character (also CPython's regex `\s` on
`str`): the full Unicode whitespace set — bidirectional class WS, B or S, or
category Zs — i.e. U+0009–U+000D, U+001C–U+0020, U+0085 (NEL), U+00A0
(no-break space), U+1680, U+2000–U+200A, U+2028, U+2029, U+202F, U+205F and
U+3000. -/
def isPySpace (c : Char) : Bool :=
  (0x09 ≤ c.val ∧ c.val ≤ 0x0d) ∨ (0x1c ≤ c.val ∧ c.val ≤ 0x20) ∨
  c.val = 0x85 ∨ c.val = 0xa0 ∨ c.val = 0x1680 ∨
  (0x2000 ≤ c.val ∧ c.val ≤ 0x200a) ∨ c.val = 0x2028 ∨ c.val = 0x2029 ∨
  c.val = 0x202f ∨ c.val = 0x205f ∨ c.val = 0x3000

/-- `sanitize_filename` (src/playwright-stealth/page_saver.py): replace
invalid characters with underscores, truncate to 97 characters plus `...`
when longer than 100, and fall back to `webpage` for an empty or
all-whitespace result. -/
def sanitize_filename (filename : String) : String :=
  let sanitized := filename.toList.map replaceInvalidChar
  let sanitized :=
    if 100 < sanitized.length then sanitized.take 97 ++ ['.', '.', '.']
    else sanitized
  if sanitized = [] ∨ sanitized.all isPySpace then "webpage"
  else String.mk sanitized

example : sanitize_filename "a/b:c*d" = "a_b_c_d" := by decide
example : sanitize_filename "  " = "webpage" := by decide
example : sanitize_filename "\u00A0" = "webpage" := by decide
example : sanitize_filename "\u00A0a" = "\u00A0a" := by decide
example :
    AntiCaptchaSolver.solve_recaptcha "u" "k" false (fun _ => none) 3 =
      (none, [5, 10], 3) := by decide

/-- A viewport entry from the `VIEWPORTS` catalog
(src/playwright-stealth/fingerprint_manager.py). -/
structure Viewport where
  width : Nat
  height : Nat
deriving DecidableEq, Repr, Inhabited

/-- A browser fingerprint record (src/playwright-stealth/fingerprint_manager.py).
`device_scale_factor` is one of 1, 1.5, 2 — all exactly representable, so it
is modelled as a rational.  `domain` and `created_at` are absent (`none`) on a
freshly drawn fingerprint. -/
structure Fingerprint where
  user_agent : String
  viewport : Viewport
  device_scale_factor : ℚ
  locale : String
  timezone_id : String
  color_scheme : String
  reduced_motion : Bool
  has_touch : Bool
  domain : Option String := none
  created_at : Option String := none
deriving DecidableEq, Repr

/-- The `USER_AGENTS` catalog. -/
def USER_AGENTS : List String :=
  ["Mozilla/5.0 (Windows NT 10.0; Win64; x64) AppleWebKit/537.36 (KHTML, like Gecko) Chrome/120.0.0.0 Safari/537.36",
   "Mozilla/5.0 (Windows NT 10.0; Win64; x64) AppleWebKit/537.36 (KHTML, like Gecko) Chrome/119.0.0.0 Safari/537.36",
   "Mozilla/5.0 (Macintosh; Intel Mac OS X 10_15_7) AppleWebKit/537.36 (KHTML, like Gecko) Chrome/120.0.0.0 Safari/537.36",
   "Mozilla/5.0 (Macintosh; Intel Mac OS X 10_15_7) AppleWebKit/537.36 (KHTML, like Gecko) Chrome/119.0.0.0 Safari/537.36",
   "Mozilla/5.0 (Windows NT 10.0; Win64; x64; rv:120.0) Gecko/20100101 Firefox/120.0",
   "Mozilla/5.0 (Macintosh; Intel Mac OS X 10.15; rv:120.0) Gecko/20100101 Firefox/120.0",
   "Mozilla/5.0 (Macintosh; Intel Mac OS X 10_15_7) AppleWebKit/605.1.15 (KHTML, like Gecko) Version/17.0 Safari/605.1.15",
   "Mozilla/5.0 (Windows NT 10.0; Win64; x64) AppleWebKit/537.36 (KHTML, like Gecko) Chrome/120.0.0.0 Safari/537.36 Edg/120.0.0.0"]

/-- The `VIEWPORTS` catalog. -/
def VIEWPORTS : List Viewport :=
  [⟨1920, 1080⟩, ⟨1680, 1050⟩, ⟨1440, 900⟩, ⟨1366, 768⟩, ⟨1280, 800⟩,
   ⟨1280, 720⟩]

/-- The `DEVICE_SCALE_FACTORS` catalog: `[1, 1.5, 2]`. -/
def DEVICE_SCALE_FACTORS : List ℚ := [1, 3 / 2, 2]

/-- The `LOCALES` catalog. -/
def LOCALES : List String :=
  ["en-US", "en-GB", "en-CA", "en-AU", "fr-FR", "de-DE", "es-ES", "it-IT"]

/-- The `TIMEZONES` catalog. -/
def TIMEZONES : List String :=
  ["America/New_York", "America/Los_Angeles", "America/Chicago",
   "Europe/London", "Europe/Paris", "Europe/Berlin", "Asia/Tokyo",
   "Asia/Singapore", "Australia/Sydney"]

/-- The `COLOR_SCHEMES` catalog. -/
def COLOR_SCHEMES : List String := ["light", "dark", "no-preference"]

/-- `get_random_fingerprint`: each `random.choice` draw is modelled by an
oracle index `r i` reduced modulo the catalog length, so every combination
the source can produce is reachable.  `has_touch` draws from
`[True, False, False, False]`. -/
def get_random_fingerprint (r : Nat → Nat) : Fingerprint :=
  { user_agent := USER_AGENTS.getD (r 0 % USER_AGENTS.length) ""
    viewport := VIEWPORTS.getD (r 1 % VIEWPORTS.length) default
    device_scale_factor :=
      DEVICE_SCALE_FACTORS.getD (r 2 % DEVICE_SCALE_FACTORS.length) 1
    locale := LOCALES.getD (r 3 % LOCALES.length) ""
    timezone_id := TIMEZONES.getD (r 4 % TIMEZONES.length) ""
    color_scheme := COLOR_SCHEMES.getD (r 5 % COLOR_SCHEMES.length) ""
    reduced_motion := [true, false].getD (r 6 % 2) false
    has_touch := [true, false, false, false].getD (r 7 % 4) false }

/-- The scan `for fp in fingerprints: if fp.get('domain') == domain` of
`get_fingerprint_for_domain`. -/
def findFingerprintForDomain (domain : String) (fingerprints : List Fingerprint) :
    Option Fingerprint :=
  fingerprints.find? (fun fp => fp.domain = some domain)

/-- `get_fingerprint_for_domain(domain, fingerprints_file)`
(src/playwright-stealth/fingerprint_manager.py).  The backing file is
modelled by the `table` it holds (`load_fingerprints` of an absent or
unreadable file yields `[]`); `r` and `created_at` are the oracles for
`get_random_fingerprint` and `datetime.now().isoformat()`, and `writeOk`
says whether `save_fingerprints` succeeds (on failure the fresh fingerprint
is still returned but the table is not durably extended). -/
def get_fingerprint_for_domain (domain : String) (table : List Fingerprint)
    (r : Nat → Nat) (created_at : String) (writeOk : Bool) :
    Fingerprint × List Fingerprint :=
  match findFingerprintForDomain domain table with
  | some fp => (fp, table)
  | none =>
    let nf := { get_random_fingerprint r with
                domain := some domain, created_at := some created_at }
    (nf, if writeOk then table ++ [nf] else table)

/-- An element handle, exposing the one operation the extractor uses:
`get_attribute`. -/
structure Element where
  attrs : List (String × String)
deriving DecidableEq, Repr

/-- `element.get_attribute(name)`: the attribute's value, or `None`. -/
def Element.get_attribute (e : Element) (name : String) : Option String :=
  (e.attrs.find? (fun kv => kv.1 = name)).map (fun kv => kv.2)

/-- A rendered page, as `extract_captcha_sitekey` consumes it: the result of
each CSS selector query, and the full HTML text returned by
`page.content()`. -/
structure Page where
  selectors : List (String × Element)
  content : String
deriving DecidableEq, Repr

/-- `page.query_selector(sel)`. -/
def Page.query_selector (p : Page) (sel : String) : Option Element :=
  (p.selectors.find? (fun se => se.1 = sel)).map (fun se => se.2)

/-- The regex class `\w` (ASCII part): letters, digits, underscore. -/
def isWordChar (c : Char) : Bool := c.isAlphanum ∨ c = '_'

/-- The regex class `[\w-]`. -/
def isKeyChar (c : Char) : Bool := isWordChar c ∨ c = '-'

/-- The regex class `["\']`. -/
def isQuoteChar (c : Char) : Bool := c = '"' ∨ c = '\''

/-- Match a literal character sequence at the head of the input, returning
the rest of the input. -/
def stripLit : List Char → List Char → Option (List Char)
  | [], rest => some rest
  | _ :: _, [] => none
  | l :: ls, c :: cs => if c = l then stripLit ls cs else none

/-- Match one character of a class at the head of the input. -/
def stripClass (q : Char → Bool) : List Char → Option (List Char)
  | [] => none
  | c :: cs => if q c then some cs else none

/-- `([\w-]+)["\']`: a nonempty greedy run of key characters followed by a
quote.  Since `[\w-]` excludes both quote characters, the greedy run with
this follow-set needs no backtracking. -/
def keyRunThenQuote (cs : List Char) : Option String :=
  let (run, rest) := cs.span isKeyChar
  if run = [] then none
  else
    match stripClass isQuoteChar rest with
    | some _ => some (String.mk run)
    | none => none

/-- The pattern `["\']sitekey["\']\s*:\s*["\']([\w-]+)["\']` anchored at the
head of the input (method 2 of `extract_captcha_sitekey`). -/
def sitekeyPatternAt (cs : List Char) : Option String := do
  let cs ← stripClass isQuoteChar cs
  let cs ← stripLit "sitekey".toList cs
  let cs ← stripClass isQuoteChar cs
  let cs := cs.dropWhile isPySpace
  let cs ← stripLit ":".toList cs
  let cs := cs.dropWhile isPySpace
  let cs ← stripClass isQuoteChar cs
  keyRunThenQuote cs

/-- The pattern `google\.com/recaptcha/api\.js\?render=([\w-]+)` anchored at
the head of the input (method 3). -/
def apiJsRenderAt (cs : List Char) : Option String := do
  let cs ← stripLit "google.com/recaptcha/api.js?render=".toList cs
  let (run, _) := cs.span isKeyChar
  if run = [] then none else some (String.mk run)

/-- The suffix `.*?["\']([\w-]+)["\']` of method 4: extend the lazy gap one
character at a time (never across a newline, which `.` does not match),
trying the quoted token at each position first — exactly Python's lazy
semantics. -/
def lazyQuotedToken : List Char → Option String
  | [] => none
  | c :: cs =>
    match (do
        let rest ← stripClass isQuoteChar (c :: cs)
        keyRunThenQuote rest) with
    | some r => some r
    | none => if c = '\n' then none else lazyQuotedToken cs

/-- The pattern `grecaptcha\.render\(.*?["\']([\w-]+)["\']` anchored at the
head of the input (method 4). -/
def grecaptchaRenderAt (cs : List Char) : Option String := do
  let cs ← stripLit "grecaptcha.render(".toList cs
  lazyQuotedToken cs

/-- `re.search`: try the anchored pattern at each start position, leftmost
first. -/
def reSearch (patternAt : List Char → Option String) :
    List Char → Option String
  | [] => patternAt []
  | c :: cs =>
    match patternAt (c :: cs) with
    | some r => some r
    | none => reSearch patternAt cs

/-- The `query_selector` plus truthy `data-sitekey` lookup shared by methods
1 (`.g-recaptcha`), 5 (`.h-captcha`) and 6 (`.cf-turnstile`): a missing
element, a missing attribute, or an empty (falsy) value all fall through. -/
def containerSitekey (page : Page) (sel : String) : Option String :=
  match page.query_selector sel with
  | some el =>
    match el.get_attribute "data-sitekey" with
    | some k => if k = "" then none else some k
    | none => none
  | none => none

/-- `extract_captcha_sitekey(page)` (src/playwright-stealth/utils.py): the
ordered search — reCAPTCHA container attribute, quoted `sitekey` text, the
`api.js?render=` loader URL, the `grecaptcha.render(` call, then the
hCaptcha and Turnstile container attributes — returning the first match. -/
def extract_captcha_sitekey (page : Page) : Option String :=
  (containerSitekey page ".g-recaptcha").orElse fun _ =>
  (reSearch sitekeyPatternAt page.content.toList).orElse fun _ =>
  (reSearch apiJsRenderAt page.content.toList).orElse fun _ =>
  (reSearch grecaptchaRenderAt page.content.toList).orElse fun _ =>
  (containerSitekey page ".h-captcha").orElse fun _ =>
  containerSitekey page ".cf-turnstile"

example :
    extract_captcha_sitekey
      { selectors := [(".g-recaptcha", { attrs := [("data-sitekey", "abc123")] })]
        content := "<div class=\"g-recaptcha\" data-sitekey=\"abc123\"></div>" } =
    some "abc123" := by decide

example :
    extract_captcha_sitekey
      { selectors := []
        content := "grecaptcha.render('body', \x7bsitekey: \"xyz789\"\x7d)" } =
    some "body" := by decide

example :
    extract_captcha_sitekey
      { selectors := []
        content := "var c = \x7b\"sitekey\" : \"k-42\"\x7d;" } = some "k-42" := by
  decide

lemma mem_workingProxies {l : List Proxy} {f : Finset Nat} {p : Proxy} :
    p ∈ workingProxies l f ↔ ∃ j, j ∉ f ∧ l.get? j = some p := by
  unfold workingProxies
  constructor
  · intro hp
    obtain ⟨⟨i, a⟩, hmem, rfl⟩ := List.mem_map.mp hp
    obtain ⟨henum, hq⟩ := List.mem_filter.mp hmem
    refine ⟨i, by simpa using hq, ?_⟩
    exact List.mem_enum_iff_get?.mp henum
  · rintro ⟨j, hj, hget⟩
    refine List.mem_map.mpr ⟨(j, p), List.mem_filter.mpr ⟨?_, by simpa using hj⟩, rfl⟩
    exact List.mem_enum_iff_get?.mpr hget

lemma workingProxies_eq_nil {l : List Proxy} {f : Finset Nat}
    (h : ∀ i, i < l.length → i ∈ f) : workingProxies l f = [] := by
  unfold workingProxies
  rw [List.map_eq_nil, List.filter_eq_nil_iff]
  rintro ⟨i, a⟩ hmem
  have hget : l.get? i = some a := List.mem_enum_iff_get?.mp hmem
  obtain ⟨hi, -⟩ := List.get?_eq_some.mp hget
  simp [h i hi]

lemma getD_mod_mem {l : List Proxy} (h : l ≠ []) (k : Nat) :
    l.getD (k % l.length) default ∈ l := by
  have hl : 0 < l.length := List.length_pos.mpr h
  have hk : k % l.length < l.length := Nat.mod_lt _ hl
  rw [List.getD_eq_getElem l default hk]
  exact List.getElem_mem hk

lemma pyListGet_indexOf {l : List Proxy} {p : Proxy} (h : p ∈ l) :
    pyListGet l (l.indexOf p : Int) = some p := by
  have hlt : l.indexOf p < l.length := List.indexOf_lt_length.mpr h
  unfold pyListGet
  rw [if_pos (Int.natCast_nonneg _)]
  simp only [Int.toNat_natCast]
  rw [List.get?_eq_get hlt]
  exact congrArg some (List.indexOf_get hlt)

lemma removeFirstProxy_eq_none_iff (server : String) (l : List Proxy) :
    removeFirstProxy server l = none ↔ ∀ p ∈ l, p.server ≠ server := by
  induction l with
  | nil => simp [removeFirstProxy]
  | cons p ps ih =>
    by_cases h : p.server = server
    · simp [removeFirstProxy, h]
    · simp [removeFirstProxy, h, Option.map_eq_none', ih]

lemma removeFirstProxy_eq_some (server : String) (l l' : List Proxy)
    (h : removeFirstProxy server l = some l') :
    l' = l.eraseP (fun p => decide (p.server = server)) := by
  induction l generalizing l' with
  | nil => simp [removeFirstProxy] at h
  | cons p ps ih =>
    by_cases hp : p.server = server
    · simp only [removeFirstProxy, if_pos hp, Option.some.injEq] at h
      rw [List.eraseP_cons_of_pos (by simpa using hp), h]
    · simp only [removeFirstProxy, if_neg hp, Option.map_eq_some'] at h
      obtain ⟨a, ha, rfl⟩ := h
      rw [List.eraseP_cons_of_neg (by simpa using hp), ih a ha]

lemma solveAttempts_succ (results : Nat → Option String) (remaining attempt : Nat)
    (sleeps : List Nat) (tried : Nat) :
    solveAttempts results (remaining + 1) attempt sleeps tried =
      match results attempt with
      | some sol => (some sol, sleeps, tried + 1)
      | none =>
        solveAttempts results remaining (attempt + 1)
          (if 0 < remaining then sleeps ++ [5 * (attempt + 1)] else sleeps)
          (tried + 1) := rfl

lemma solveAttempts_three_failures (results : Nat → Option String)
    (h0 : results 0 = none) (h1 : results 1 = none) (h2 : results 2 = none) :
    solveAttempts results 3 0 [] 0 = (none, [5, 10], 3) := by
  rw [solveAttempts_succ, h0]
  show solveAttempts results 2 1 [5] 1 = (none, [5, 10], 3)
  rw [solveAttempts_succ, h1]
  show solveAttempts results 1 2 [5, 10] 2 = (none, [5, 10], 3)
  rw [solveAttempts_succ, h2]
  rfl

lemma solveAttempts_first_success (results : Nat → Option String) (t : String)
    (h0 : results 0 = some t) :
    solveAttempts results 3 0 [] 0 = (some t, [], 1) := by
  rw [solveAttempts_succ, h0]

lemma solveAttempts_second_success (results : Nat → Option String) (t : String)
    (h0 : results 0 = none) (h1 : results 1 = some t) :
    solveAttempts results 3 0 [] 0 = (some t, [5], 2) := by
  rw [solveAttempts_succ, h0]
  show solveAttempts results 2 1 [5] 1 = (some t, [5], 2)
  rw [solveAttempts_succ, h1]

lemma solveAttempts_third_success (results : Nat → Option String) (t : String)
    (h0 : results 0 = none) (h1 : results 1 = none) (h2 : results 2 = some t) :
    solveAttempts results 3 0 [] 0 = (some t, [5, 10], 3) := by
  rw [solveAttempts_succ, h0]
  show solveAttempts results 2 1 [5] 1 = (some t, [5, 10], 3)
  rw [solveAttempts_succ, h1]
  show solveAttempts results 1 2 [5, 10] 2 = (some t, [5, 10], 3)
  rw [solveAttempts_succ, h2]

lemma get_proxy_no_rotation (s : CustomProxyRotator) (force : Bool) (now : Int)
    (pick : Nat) (hne : s.proxies ≠ [])
    (hgate : ¬(force = true ∨ s.current_index = -1 ∨
      s.rotation_interval < now - s.last_rotation)) :
    s.get_proxy force now pick = (pyListGet s.proxies s.current_index, s) := by
  simp only [CustomProxyRotator.get_proxy, if_neg hne, if_neg hgate]

lemma get_proxy_rotation_working (s : CustomProxyRotator) (force : Bool)
    (now : Int) (pick : Nat) (hne : s.proxies ≠ [])
    (hgate : force = true ∨ s.current_index = -1 ∨
      s.rotation_interval < now - s.last_rotation)
    (hw : workingProxies s.proxies s.failed_proxies ≠ []) :
    s.get_proxy force now pick =
      (some ((workingProxies s.proxies s.failed_proxies).getD
          (pick % (workingProxies s.proxies s.failed_proxies).length) default),
       { s with
         current_index := ((s.proxies.indexOf
           ((workingProxies s.proxies s.failed_proxies).getD
             (pick % (workingProxies s.proxies s.failed_proxies).length)
             default) : Nat) : Int)
         last_rotation := now }) := by
  have hmemW : (workingProxies s.proxies s.failed_proxies).getD
      (pick % (workingProxies s.proxies s.failed_proxies).length) default ∈
      workingProxies s.proxies s.failed_proxies := getD_mod_mem hw pick
  obtain ⟨k, hk, hgetk⟩ := mem_workingProxies.mp hmemW
  have hmem : (workingProxies s.proxies s.failed_proxies).getD
      (pick % (workingProxies s.proxies s.failed_proxies).length) default ∈
      s.proxies := List.get?_mem hgetk
  simp only [CustomProxyRotator.get_proxy, if_neg hne, if_pos hgate, if_neg hw]
  rw [pyListGet_indexOf hmem]

lemma get_proxy_rotation_exhausted (s : CustomProxyRotator) (force : Bool)
    (now : Int) (pick : Nat) (hne : s.proxies ≠ [])
    (hgate : force = true ∨ s.current_index = -1 ∨
      s.rotation_interval < now - s.last_rotation)
    (hw : workingProxies s.proxies s.failed_proxies = []) :
    s.get_proxy force now pick =
      (some (s.proxies.getD (pick % s.proxies.length) default),
       { s with
         failed_proxies := ∅
         current_index := ((s.proxies.indexOf
           (s.proxies.getD (pick % s.proxies.length) default) : Nat) : Int)
         last_rotation := now }) := by
  simp only [CustomProxyRotator.get_proxy, if_neg hne, if_pos hgate, if_pos hw]
  rw [pyListGet_indexOf (getD_mod_mem hne pick)]

/-- C1, counterexample: the exclusion invariant fails on the literal claim.
Start from a fresh two-entry pool, select index 0 via `get_proxy`, mark it
failed, and call `get_proxy` again without force inside the rotation
interval: the call performs no rotation and re-returns the entry at index 0,
which is in the exclusion set while index 1 is not. -/
theorem C1_excluded_entry_returned_counterexample :
    ((((CustomProxyRotator.init
          [{ server := "http://p0" }, { server := "http://p1" }]).get_proxy
        false 0 0).2.mark_proxy_failed).get_proxy false 1 0).1 =
      some { server := "http://p0" } ∧
    (0 : Nat) ∈ (((CustomProxyRotator.init
          [{ server := "http://p0" }, { server := "http://p1" }]).get_proxy
        false 0 0).2.mark_proxy_failed).failed_proxies ∧
    (1 : Nat) ∉ (((CustomProxyRotator.init
          [{ server := "http://p0" }, { server := "http://p1" }]).get_proxy
        false 0 0).2.mark_proxy_failed).failed_proxies ∧
    (((CustomProxyRotator.init
          [{ server := "http://p0" }, { server := "http://p1" }]).get_proxy
        false 0 0).2.mark_proxy_failed).proxies.get? 0 =
      some { server := "http://p0" } ∧
    (((CustomProxyRotator.init
          [{ server := "http://p0" }, { server := "http://p1" }]).get_proxy
        false 0 0).2.mark_proxy_failed).proxies.length = 2 := by
  decide

/-- C1 (amended): when a `get_proxy` call performs a rotation — forced, no
selection yet, or interval elapsed — and some non-excluded entry exists, the
returned descriptor is a pool entry occurring at a non-excluded index.
Between rotations the source re-returns `proxies[current_index]` even if
that index has since been marked failed. -/
theorem C1_rotation_never_returns_excluded (s : CustomProxyRotator)
    (force : Bool) (now : Int) (pick : Nat) (j : Nat)
    (hgate : force = true ∨ s.current_index = -1 ∨
      s.rotation_interval < now - s.last_rotation)
    (hj : j ∉ s.failed_proxies) (hjlen : j < s.proxies.length) :
    ∃ p k, (s.get_proxy force now pick).1 = some p ∧
      k ∉ s.failed_proxies ∧ s.proxies.get? k = some p := by
  have hne : s.proxies ≠ [] := by
    intro h
    rw [h] at hjlen
    simp at hjlen
  have hpj : s.proxies.get? j = some (s.proxies.get ⟨j, hjlen⟩) :=
    List.get?_eq_get hjlen
  have hw : workingProxies s.proxies s.failed_proxies ≠ [] :=
    List.ne_nil_of_mem (mem_workingProxies.mpr ⟨j, hj, hpj⟩)
  obtain ⟨k, hk, hgetk⟩ :=
    mem_workingProxies.mp (getD_mod_mem hw pick)
  rw [get_proxy_rotation_working s force now pick hne hgate hw]
  exact ⟨_, k, rfl, hk, hgetk⟩

/-- C1 witness: a forced rotation on a pool with index 0 excluded and index 1
available returns an entry stored at a non-excluded index. -/
theorem C1_rotation_never_returns_excluded_witness :
    ∃ p k,
      (({ proxies := [{ server := "http://p0" }, { server := "http://p1" }]
          current_index := 0
          last_rotation := 0
          rotation_interval := 60
          failed_proxies := {0} } : CustomProxyRotator).get_proxy
        true 5 0).1 = some p ∧
      k ∉ ({ proxies := [{ server := "http://p0" }, { server := "http://p1" }]
             current_index := 0
             last_rotation := 0
             rotation_interval := 60
             failed_proxies := {0} } : CustomProxyRotator).failed_proxies ∧
      ({ proxies := [{ server := "http://p0" }, { server := "http://p1" }]
         current_index := 0
         last_rotation := 0
         rotation_interval := 60
         failed_proxies := {0} } : CustomProxyRotator).proxies.get? k =
        some p :=
  C1_rotation_never_returns_excluded _ true 5 0 1 (Or.inl rfl) (by decide)
    (by decide)

/-- C2: with a nonempty pool in which every index is excluded (as after
marking every selection failed) and a validly reachable `current_index`, one
further `get_proxy` call returns an entry of the full pool (never `none`),
and if that call performs a rotation the exclusion set is cleared. -/
theorem C2_exhausted_exclusions_reset (s : CustomProxyRotator) (force : Bool)
    (now : Int) (pick : Nat) (hne : s.proxies ≠ [])
    (hall : ∀ i, i < s.proxies.length → i ∈ s.failed_proxies)
    (hidx : s.current_index = -1 ∨
      (0 ≤ s.current_index ∧ s.current_index < (s.proxies.length : Int))) :
    (∃ p, (s.get_proxy force now pick).1 = some p ∧ p ∈ s.proxies) ∧
    ((force = true ∨ s.current_index = -1 ∨
        s.rotation_interval < now - s.last_rotation) →
      (s.get_proxy force now pick).2.failed_proxies = ∅) := by
  by_cases hgate : force = true ∨ s.current_index = -1 ∨
      s.rotation_interval < now - s.last_rotation
  · rw [get_proxy_rotation_exhausted s force now pick hne hgate
      (workingProxies_eq_nil hall)]
    exact ⟨⟨_, rfl, getD_mod_mem hne pick⟩, fun _ => rfl⟩
  · rw [get_proxy_no_rotation s force now pick hne hgate]
    refine ⟨?_, fun hg => absurd hg hgate⟩
    rcases hidx with h1 | ⟨h0, hlt⟩
    · exact absurd (Or.inr (Or.inl h1)) hgate
    · have hnat : s.current_index.toNat < s.proxies.length := by omega
      refine ⟨s.proxies.get ⟨s.current_index.toNat, hnat⟩, ?_, List.get_mem _ _ _⟩
      unfold pyListGet
      rw [if_pos h0]
      exact List.get?_eq_get hnat

/-- C2 witness: one fully excluded entry, non-forced call after the interval
has elapsed. -/
theorem C2_exhausted_exclusions_reset_witness :
    (∃ p,
      (({ proxies := [{ server := "http://p0" }]
          current_index := 0
          last_rotation := 0
          rotation_interval := 60
          failed_proxies := {0} } : CustomProxyRotator).get_proxy
        false 100 0).1 = some p ∧
      p ∈ ({ proxies := [{ server := "http://p0" }]
             current_index := 0
             last_rotation := 0
             rotation_interval := 60
             failed_proxies := {0} } : CustomProxyRotator).proxies) ∧
    ((false = true ∨
        ({ proxies := [{ server := "http://p0" }]
           current_index := 0
           last_rotation := 0
           rotation_interval := 60
           failed_proxies := {0} } : CustomProxyRotator).current_index = -1 ∨
        ({ proxies := [{ server := "http://p0" }]
           current_index := 0
           last_rotation := 0
           rotation_interval := 60
           failed_proxies := {0} } : CustomProxyRotator).rotation_interval <
          100 - ({ proxies := [{ server := "http://p0" }]
                   current_index := 0
                   last_rotation := 0
                   rotation_interval := 60
                   failed_proxies := {0} } : CustomProxyRotator).last_rotation) →
      (({ proxies := [{ server := "http://p0" }]
          current_index := 0
          last_rotation := 0
          rotation_interval := 60
          failed_proxies := {0} } : CustomProxyRotator).get_proxy
        false 100 0).2.failed_proxies = ∅) :=
  C2_exhausted_exclusions_reset _ false 100 0 (by decide)
    (by decide) (Or.inr ⟨by decide, by decide⟩)

/-- C3, counterexample: on a page whose only CAPTCHA marker is the inline
script `grecaptcha.render('body', \x7bsitekey: "xyz789"})`, the extractor does
not return `"xyz789"`.  The quoted-`sitekey` pattern requires quotes around
the key name, so it skips the unquoted `\x7bsitekey: ...}`, and the
`grecaptcha.render` pattern captures the first quoted token after the opening
parenthesis — the container id `"body"`. -/
theorem C3_render_sitekey_counterexample :
    extract_captcha_sitekey
        { selectors := []
          content := "grecaptcha.render('body', \x7bsitekey: \"xyz789\"\x7d)" } =
      some "body" ∧
    extract_captcha_sitekey
        { selectors := []
          content := "grecaptcha.render('body', \x7bsitekey: \"xyz789\"\x7d)" } ≠
      some "xyz789" := by
  decide

/-- C3 (amended): site-key extraction returns `"abc123"` for a page whose
only marker is a `.g-recaptcha` element with `data-sitekey="abc123"`; for a
page whose only marker is the inline script
`grecaptcha.render('body', \x7bsitekey: "xyz789"})` it returns `"body"` (the
first quoted word-token after the render call's opening parenthesis, not the
sitekey); the search respects the documented order (the `.g-recaptcha`
attribute wins over inline quoted-`sitekey` text; hCaptcha and Turnstile
container attributes are used when the reCAPTCHA methods fail); and it
returns nothing when no method matches. -/
theorem C3_extract_sitekey_ordered_search :
    extract_captcha_sitekey
        { selectors :=
            [(".g-recaptcha", { attrs := [("data-sitekey", "abc123")] })]
          content := "<div class=\"g-recaptcha\" data-sitekey=\"abc123\"></div>" } =
      some "abc123" ∧
    extract_captcha_sitekey
        { selectors := []
          content := "grecaptcha.render('body', \x7bsitekey: \"xyz789\"\x7d)" } =
      some "body" ∧
    extract_captcha_sitekey
        { selectors :=
            [(".g-recaptcha", { attrs := [("data-sitekey", "abc123")] })]
          content := "var cfg = \x7b\"sitekey\": \"zzz\"\x7d;" } = some "abc123" ∧
    extract_captcha_sitekey
        { selectors := [], content := "var cfg = \x7b\"sitekey\": \"zzz\"\x7d;" } =
      some "zzz" ∧
    extract_captcha_sitekey
        { selectors := []
          content := "<script src=\"https://www.google.com/recaptcha/api.js?render=rkey_1\"></script>" } =
      some "rkey_1" ∧
    extract_captcha_sitekey
        { selectors := [(".h-captcha", { attrs := [("data-sitekey", "hkey-1")] })]
          content := "" } = some "hkey-1" ∧
    extract_captcha_sitekey
        { selectors := [(".cf-turnstile", { attrs := [("data-sitekey", "tkey-1")] })]
          content := "" } = some "tkey-1" ∧
    extract_captcha_sitekey { selectors := [], content := "no captcha here" } =
      none := by
  decide

/-- C4: for each `solve_<kind>` call with `max_attempts = 3` (solver outcomes
given by the per-attempt oracle `results`): the first successful attempt's
token is returned with no sleep after it — sleeps performed so far being 5
seconds before attempt 2 and 10 before attempt 3 — and if all three attempts
fail, the sleeps are exactly `[5, 10]` (none after the last attempt) and the
result is `none`. -/
theorem C4_solve_retry_backoff (url key : String) (inv : Bool)
    (results : Nat → Option String) (t : String) :
    ((results 0 = some t →
        AntiCaptchaSolver.solve_recaptcha url key inv results 3 =
          (some t, [], 1)) ∧
      (results 0 = none → results 1 = some t →
        AntiCaptchaSolver.solve_recaptcha url key inv results 3 =
          (some t, [5], 2)) ∧
      (results 0 = none → results 1 = none → results 2 = some t →
        AntiCaptchaSolver.solve_recaptcha url key inv results 3 =
          (some t, [5, 10], 3)) ∧
      (results 0 = none → results 1 = none → results 2 = none →
        AntiCaptchaSolver.solve_recaptcha url key inv results 3 =
          (none, [5, 10], 3))) ∧
    ((results 0 = some t →
        AntiCaptchaSolver.solve_hcaptcha url key results 3 = (some t, [], 1)) ∧
      (results 0 = none → results 1 = some t →
        AntiCaptchaSolver.solve_hcaptcha url key results 3 = (some t, [5], 2)) ∧
      (results 0 = none → results 1 = none → results 2 = some t →
        AntiCaptchaSolver.solve_hcaptcha url key results 3 =
          (some t, [5, 10], 3)) ∧
      (results 0 = none → results 1 = none → results 2 = none →
        AntiCaptchaSolver.solve_hcaptcha url key results 3 =
          (none, [5, 10], 3))) ∧
    ((results 0 = some t →
        AntiCaptchaSolver.solve_turnstile url key results 3 = (some t, [], 1)) ∧
      (results 0 = none → results 1 = some t →
        AntiCaptchaSolver.solve_turnstile url key results 3 = (some t, [5], 2)) ∧
      (results 0 = none → results 1 = none → results 2 = some t →
        AntiCaptchaSolver.solve_turnstile url key results 3 =
          (some t, [5, 10], 3)) ∧
      (results 0 = none → results 1 = none → results 2 = none →
        AntiCaptchaSolver.solve_turnstile url key results 3 =
          (none, [5, 10], 3))) :=
  ⟨⟨fun h0 => solveAttempts_first_success results t h0,
    fun h0 h1 => solveAttempts_second_success results t h0 h1,
    fun h0 h1 h2 => solveAttempts_third_success results t h0 h1 h2,
    fun h0 h1 h2 => solveAttempts_three_failures results h0 h1 h2⟩,
   ⟨fun h0 => solveAttempts_first_success results t h0,
    fun h0 h1 => solveAttempts_second_success results t h0 h1,
    fun h0 h1 h2 => solveAttempts_third_success results t h0 h1 h2,
    fun h0 h1 h2 => solveAttempts_three_failures results h0 h1 h2⟩,
   ⟨fun h0 => solveAttempts_first_success results t h0,
    fun h0 h1 => solveAttempts_second_success results t h0 h1,
    fun h0 h1 h2 => solveAttempts_third_success results t h0 h1 h2,
    fun h0 h1 h2 => solveAttempts_three_failures results h0 h1 h2⟩⟩

/-- C4 witness: an oracle failing attempt 1 and succeeding at attempt 2
yields the token with a single 5-second sleep. -/
theorem C4_solve_retry_backoff_witness :
    AntiCaptchaSolver.solve_recaptcha "http://site" "sitekey0" false
        (fun n => if n = 1 then some "token" else none) 3 =
      (some "token", [5], 2) :=
  (C4_solve_retry_backoff "http://site" "sitekey0" false
      (fun n => if n = 1 then some "token" else none) "token").1.2.1 rfl rfl

lemma get_fingerprint_found (domain : String) (table : List Fingerprint)
    (r : Nat → Nat) (c : String) (w : Bool) (fp : Fingerprint)
    (h : findFingerprintForDomain domain table = some fp) :
    get_fingerprint_for_domain domain table r c w = (fp, table) := by
  unfold get_fingerprint_for_domain
  rw [h]

/-- C5: for the service-backed rotator with an existing session, two
non-forced `get_proxy` calls within the rotation interval return the same
descriptor, embedding the stored session id; a forced call, or one after the
interval has elapsed, stores the freshly minted session id and records the
rotation time, and its descriptor embeds that new id. -/
theorem C5_session_stable_between_rotations (s : SmartproxyRotator)
    (sid : String) (now1 now2 : Int) (r1 r2 : Nat)
    (hs : s.session_id = some sid)
    (h1 : now1 - s.last_rotation ≤ s.rotation_interval)
    (h2 : now2 - s.last_rotation ≤ s.rotation_interval) :
    ((s.get_proxy false now1 r1).2.get_proxy false now2 r2).1 =
      (s.get_proxy false now1 r1).1 ∧
    (s.get_proxy false now1 r1).1.username =
      s.username ++ "-session-" ++ sid ∧
    (∀ force now rand,
      (force = true ∨ s.rotation_interval < now - s.last_rotation) →
      (s.get_proxy force now rand).2.session_id = some (mintSession rand) ∧
      (s.get_proxy force now rand).2.last_rotation = now ∧
      (s.get_proxy force now rand).1.username =
        s.username ++ "-session-" ++ mintSession rand) := by
  refine ⟨?_, ?_, ?_⟩
  · simp [SmartproxyRotator.get_proxy, hs, not_lt.mpr h1, not_lt.mpr h2]
  · simp [SmartproxyRotator.get_proxy, hs, not_lt.mpr h1]
  · intro force now rand hg
    rcases hg with h | h
    · simp [SmartproxyRotator.get_proxy, h]
    · simp [SmartproxyRotator.get_proxy, h]

/-- C5 witness: a rotator with session id `12345`, two calls at times 10 and
20 within the 60-second interval, plus a forced rotation with draw 7. -/
theorem C5_session_stable_between_rotations_witness :
    ((({ SmartproxyRotator.init "user" "pw" with
          session_id := some "12345" }).get_proxy false 10 1).2.get_proxy
        false 20 2).1 =
      (({ SmartproxyRotator.init "user" "pw" with
          session_id := some "12345" }).get_proxy false 10 1).1 ∧
    (({ SmartproxyRotator.init "user" "pw" with
        session_id := some "12345" }).get_proxy false 10 1).1.username =
      "user" ++ "-session-" ++ "12345" ∧
    ((({ SmartproxyRotator.init "user" "pw" with
          session_id := some "12345" }).get_proxy true 0 7).2.session_id =
        some (mintSession 7) ∧
      (({ SmartproxyRotator.init "user" "pw" with
          session_id := some "12345" }).get_proxy true 0 7).2.last_rotation =
        0 ∧
      (({ SmartproxyRotator.init "user" "pw" with
          session_id := some "12345" }).get_proxy true 0 7).1.username =
        "user" ++ "-session-" ++ mintSession 7) := by
  obtain ⟨a, b, c⟩ :=
    C5_session_stable_between_rotations
      { SmartproxyRotator.init "user" "pw" with session_id := some "12345" }
      "12345" 10 20 1 2 rfl (by decide) (by decide)
  exact ⟨a, b, c true 0 7 (Or.inl rfl)⟩

/-- C6: two successive `get_fingerprint_for_domain` calls against the same
backing table, the first call's write succeeding, return the identical
fingerprint record; the second call finds the stored record by linear scan
(`findFingerprintForDomain`) and leaves the table unchanged. -/
theorem C6_fingerprint_lookup_idempotent (domain : String)
    (table : List Fingerprint) (r1 r2 : Nat → Nat) (c1 c2 : String)
    (w2 : Bool) :
    (get_fingerprint_for_domain domain
        (get_fingerprint_for_domain domain table r1 c1 true).2 r2 c2 w2).1 =
      (get_fingerprint_for_domain domain table r1 c1 true).1 ∧
    (get_fingerprint_for_domain domain
        (get_fingerprint_for_domain domain table r1 c1 true).2 r2 c2 w2).2 =
      (get_fingerprint_for_domain domain table r1 c1 true).2 ∧
    findFingerprintForDomain domain
        (get_fingerprint_for_domain domain table r1 c1 true).2 =
      some (get_fingerprint_for_domain domain table r1 c1 true).1 := by
  have key : findFingerprintForDomain domain
      (get_fingerprint_for_domain domain table r1 c1 true).2 =
      some (get_fingerprint_for_domain domain table r1 c1 true).1 := by
    cases h : findFingerprintForDomain domain table with
    | some fp =>
      rw [get_fingerprint_found domain table r1 c1 true fp h]
      exact h
    | none =>
      have e1 : get_fingerprint_for_domain domain table r1 c1 true =
          ({ get_random_fingerprint r1 with
             domain := some domain, created_at := some c1 },
           table ++ [{ get_random_fingerprint r1 with
             domain := some domain, created_at := some c1 }]) := by
        unfold get_fingerprint_for_domain
        rw [h]
        rfl
      rw [e1]
      unfold findFingerprintForDomain at h ⊢
      rw [List.find?_append, h]
      simp [List.find?]
  rw [get_fingerprint_found domain
    (get_fingerprint_for_domain domain table r1 c1 true).2 r2 c2 w2
    (get_fingerprint_for_domain domain table r1 c1 true).1 key]
  exact ⟨rfl, rfl, key⟩

/-- C7: for the list-based rotator with an empty pool, `get_proxy` returns
`None` — whatever the force flag, time, draw, or prior interval/reset
mutations — and the model, being total, raises nothing; the state is
untouched. -/
theorem C7_empty_pool_returns_none (s : CustomProxyRotator) (force : Bool)
    (now : Int) (pick : Nat) (h : s.proxies = []) :
    s.get_proxy force now pick = (none, s) := by
  simp only [CustomProxyRotator.get_proxy, if_pos h]

/-- C7 witness: an empty rotator after `set_rotation_interval` and
`reset_failed_proxies`, called with force. -/
theorem C7_empty_pool_returns_none_witness :
    (((CustomProxyRotator.init []).set_rotation_interval 5).reset_failed_proxies).get_proxy
        true 100 3 =
      (none,
       ((CustomProxyRotator.init []).set_rotation_interval 5).reset_failed_proxies) :=
  C7_empty_pool_returns_none _ true 100 3 rfl

/-- C8: `sanitize_filename` replaces each invalid filesystem character with
exactly one underscore (for inputs within the length bound and not
degenerate, the result is exactly the character-for-character replacement);
a 150-character title is cut to its first 97 characters plus `...`; an empty
or all-whitespace input yields the fixed placeholder `webpage`. -/
theorem C8_sanitize_filename_spec :
    (∀ s : String, s.toList.length ≤ 100 →
      s.toList.map replaceInvalidChar ≠ [] →
      ¬(s.toList.map replaceInvalidChar).all isPySpace = true →
      sanitize_filename s = String.mk (s.toList.map replaceInvalidChar)) ∧
    sanitize_filename (String.mk (List.replicate 150 'a')) =
      String.mk (List.replicate 97 'a' ++ ['.', '.', '.']) ∧
    sanitize_filename "" = "webpage" ∧
    sanitize_filename "   " = "webpage" := by
  refine ⟨?_, by set_option maxRecDepth 4000 in decide, by decide, by decide⟩
  intro s hlen hne hsp
  have hlen' : ¬(100 < (s.toList.map replaceInvalidChar).length) := by
    rw [List.length_map]
    omega
  simp only [sanitize_filename, if_neg hlen']
  rw [if_neg (not_or.mpr ⟨hne, hsp⟩)]

/-- C8 witness: slashes and colons become underscores, character for
character. -/
theorem C8_sanitize_filename_spec_witness :
    sanitize_filename "a/b:c*d" =
      String.mk ("a/b:c*d".toList.map replaceInvalidChar) :=
  C8_sanitize_filename_spec.1 "a/b:c*d" (by decide) (by decide) (by decide)

/-- C9 (implicit): with `max_attempts ≤ 0` the `range` loop body never runs:
every `solve_<kind>` returns `None` having entered zero attempts (no solver
constructed, no request made) and performed zero sleeps. -/
theorem C9_nonpositive_attempts_no_work (url key : String) (inv : Bool)
    (results : Nat → Option String) (m : Int) (h : m ≤ 0) :
    AntiCaptchaSolver.solve_recaptcha url key inv results m = (none, [], 0) ∧
    AntiCaptchaSolver.solve_hcaptcha url key results m = (none, [], 0) ∧
    AntiCaptchaSolver.solve_turnstile url key results m = (none, [], 0) := by
  have h0 : m.toNat = 0 := Int.toNat_of_nonpos h
  unfold AntiCaptchaSolver.solve_recaptcha AntiCaptchaSolver.solve_hcaptcha
    AntiCaptchaSolver.solve_turnstile
  rw [h0]
  exact ⟨rfl, rfl, rfl⟩

/-- C9 witness: `max_attempts = -3`. -/
theorem C9_nonpositive_attempts_no_work_witness :
    AntiCaptchaSolver.solve_recaptcha "http://site" "sitekey0" false
        (fun _ => some "token") (-3) = (none, [], 0) ∧
    AntiCaptchaSolver.solve_hcaptcha "http://site" "sitekey0"
        (fun _ => some "token") (-3) = (none, [], 0) ∧
    AntiCaptchaSolver.solve_turnstile "http://site" "sitekey0"
        (fun _ => some "token") (-3) = (none, [], 0) :=
  C9_nonpositive_attempts_no_work "http://site" "sitekey0" false
    (fun _ => some "token") (-3) (by decide)

/-- C10 (implicit): `remove_proxy(server)` reports whether some pool entry's
`server` field matches; on a match it removes exactly the first matching
entry (`List.eraseP`), on no match the pool is unchanged; and in every case
`failed_proxies`, `current_index`, `last_rotation` and `rotation_interval`
are untouched — in particular exclusion indices are not shifted down. -/
theorem C10_remove_proxy_first_match_frame (s : CustomProxyRotator)
    (server : String) :
    (s.remove_proxy server).2.failed_proxies = s.failed_proxies ∧
    (s.remove_proxy server).2.current_index = s.current_index ∧
    (s.remove_proxy server).2.last_rotation = s.last_rotation ∧
    (s.remove_proxy server).2.rotation_interval = s.rotation_interval ∧
    ((s.remove_proxy server).1 = true ↔ ∃ p ∈ s.proxies, p.server = server) ∧
    ((s.remove_proxy server).1 = true →
      (s.remove_proxy server).2.proxies =
        s.proxies.eraseP (fun p => decide (p.server = server))) ∧
    ((s.remove_proxy server).1 = false →
      (s.remove_proxy server).2.proxies = s.proxies) := by
  unfold CustomProxyRotator.remove_proxy
  cases h : removeFirstProxy server s.proxies with
  | none =>
    have hall := (removeFirstProxy_eq_none_iff server s.proxies).mp h
    refine ⟨rfl, rfl, rfl, rfl, ?_, ?_, fun _ => rfl⟩
    · constructor
      · intro hb
        exact absurd hb (by simp)
      · rintro ⟨p, hp, hps⟩
        exact absurd hps (hall p hp)
    · intro hb
      exact absurd hb (by simp)
  | some ps =>
    refine ⟨rfl, rfl, rfl, rfl, ?_,
      fun _ => removeFirstProxy_eq_some server s.proxies ps h, ?_⟩
    · constructor
      · intro _
        by_contra hc
        push_neg at hc
        rw [(removeFirstProxy_eq_none_iff server s.proxies).mpr hc] at h
        exact Option.noConfusion h
      · intro _
        rfl
    · intro hb
      exact absurd hb (by simp)

/-- C10 witness: removing `http://a` from a two-entry pool removes exactly
the first matching entry. -/
theorem C10_remove_proxy_first_match_frame_witness :
    ((CustomProxyRotator.init
        [{ server := "http://a" }, { server := "http://b" }]).remove_proxy
      "http://a").2.proxies =
      ([{ server := "http://a" }, { server := "http://b" }] :
          List Proxy).eraseP (fun p => decide (p.server = "http://a")) :=
  (C10_remove_proxy_first_match_frame
      (CustomProxyRotator.init
        [{ server := "http://a" }, { server := "http://b" }])
      "http://a").2.2.2.2.2.1 (by decide)
